import Mathlib

/-!
Shallow embedding of the sheet component of `html-sheet-element`
(`src/components/sheet/library/sheet.jsx` and its helper
`src/components/sheet/library/helpers.js`).

JavaScript numbers are modelled as exact rationals extended with the three
IEEE special values `+Infinity`, `-Infinity` and `NaN` (`JSNum`); the
arithmetic used by the drag tracker (`+`, `-`, `*`, `/`, `Math.min`,
`Math.max`, `<`) is given the JavaScript semantics on those values.
The element's state (`SheetState`) records the `open` attribute, the
`aria-hidden` property, `returnValue`, the three `ignore-*` option
attributes, the active drag position and the inline styles the drag
handlers touch.  Event dispatch is modelled by returning the list of
notifications (`open`, `close`, `cancel`) a call emits; whether a `cancel`
listener calls `preventDefault()` is an input (`prevented`) to the
handlers that dispatch it.
-/

namespace SheetSpec

/-- A JavaScript number: a finite rational, `+Infinity`, `-Infinity` or `NaN`. -/
inductive JSNum where
  | num (q : ℚ)
  | posInf
  | negInf
  | nan
  deriving DecidableEq, Repr

/-- JavaScript unary minus. -/
def jsNeg : JSNum → JSNum
  | .num q => .num (-q)
  | .posInf => .negInf
  | .negInf => .posInf
  | .nan => .nan

/-- JavaScript `+` on numbers (`Infinity + (-Infinity)` is `NaN`). -/
def jsAdd : JSNum → JSNum → JSNum
  | .nan, _ => .nan
  | _, .nan => .nan
  | .posInf, .negInf => .nan
  | .negInf, .posInf => .nan
  | .posInf, _ => .posInf
  | _, .posInf => .posInf
  | .negInf, _ => .negInf
  | _, .negInf => .negInf
  | .num a, .num b => .num (a + b)

/-- JavaScript binary `-`. -/
def jsSub (a b : JSNum) : JSNum := jsAdd a (jsNeg b)

/-- JavaScript `*` (`Infinity * 0` is `NaN`). -/
def jsMul : JSNum → JSNum → JSNum
  | .nan, _ => .nan
  | _, .nan => .nan
  | .num a, .num b => .num (a * b)
  | .num a, .posInf => if 0 < a then .posInf else if a < 0 then .negInf else .nan
  | .num a, .negInf => if 0 < a then .negInf else if a < 0 then .posInf else .nan
  | .posInf, .num b => if 0 < b then .posInf else if b < 0 then .negInf else .nan
  | .negInf, .num b => if 0 < b then .negInf else if b < 0 then .posInf else .nan
  | .posInf, .posInf => .posInf
  | .posInf, .negInf => .negInf
  | .negInf, .posInf => .negInf
  | .negInf, .negInf => .posInf

/-- JavaScript `/` (division by `+0` gives a signed infinity; `0 / 0` is `NaN`). -/
def jsDiv : JSNum → JSNum → JSNum
  | .nan, _ => .nan
  | _, .nan => .nan
  | .num a, .num b =>
      if b = 0 then (if 0 < a then .posInf else if a < 0 then .negInf else .nan)
      else .num (a / b)
  | .num _, .posInf => .num 0
  | .num _, .negInf => .num 0
  | .posInf, .num b => if b < 0 then .negInf else .posInf
  | .negInf, .num b => if b < 0 then .posInf else .negInf
  | .posInf, .posInf => .nan
  | .posInf, .negInf => .nan
  | .negInf, .posInf => .nan
  | .negInf, .negInf => .nan

/-- JavaScript `Math.min` (any `NaN` argument makes the result `NaN`). -/
def jsMin : JSNum → JSNum → JSNum
  | .nan, _ => .nan
  | _, .nan => .nan
  | .negInf, _ => .negInf
  | _, .negInf => .negInf
  | .posInf, b => b
  | a, .posInf => a
  | .num a, .num b => .num (min a b)

/-- JavaScript `Math.max` (any `NaN` argument makes the result `NaN`). -/
def jsMax : JSNum → JSNum → JSNum
  | .nan, _ => .nan
  | _, .nan => .nan
  | .posInf, _ => .posInf
  | _, .posInf => .posInf
  | .negInf, b => b
  | a, .negInf => a
  | .num a, .num b => .num (max a b)

/-- JavaScript `<` (any comparison involving `NaN` is false). -/
def jsLt : JSNum → JSNum → Bool
  | .nan, _ => false
  | _, .nan => false
  | .posInf, _ => false
  | .negInf, .negInf => false
  | .negInf, _ => true
  | _, .negInf => false
  | .num _, .posInf => true
  | .num a, .num b => decide (a < b)

/-- `mapNumber` from `src/components/sheet/library/helpers.js`:
`(number - currentRange[0]) / currentRangeSize * newRangeSize + newRange[0]`. -/
def mapNumber (number c0 c1 n0 n1 : JSNum) : JSNum :=
  let currentRangeSize := jsSub c1 c0
  let newRangeSize := jsSub n1 n0
  jsAdd (jsMul (jsDiv (jsSub number c0) currentRangeSize) newRangeSize) n0

/-- The lifecycle notifications the element dispatches. -/
inductive Notification where
  | openEv
  | closeEv
  | cancelEv
  deriving DecidableEq, Repr

/-- The inline `transform` style of the inner sheet wrapper: either cleared
(`""`) or the `translateY(..%) scale(..)` pair written by `#dragSheet`. -/
inductive InlineTransform where
  | cleared
  | translateYScale (ty sc : JSNum)
  deriving DecidableEq, Repr

/-- The observable state of a `SheetElement` instance: the `open` attribute,
the `ariaHidden` property (unset until first written), `returnValue`, the
presence of the three `ignore-*` option attributes, the drag-session
position `#dragPosition`, the sampled `--scale-down-to` factor, and the
inline styles the drag handlers write. -/
structure SheetState where
  openAttr : Bool
  ariaHidden : Option Bool
  returnValue : String
  ignoreBackdropClick : Bool
  ignoreEscapeKey : Bool
  ignoreDraggingDown : Bool
  dragPosition : Option ℚ
  scaleDownTo : JSNum
  transform : InlineTransform
  transitionNone : Bool
  handleCursor : String
  bodyCursor : String
  isResized : Bool
  deriving DecidableEq, Repr

/-- `get open`: `this.hasAttribute("open")`. -/
def isOpen (st : SheetState) : Bool := st.openAttr

/-- `options.closeOnBackdropClick`: `!this.hasAttribute("ignore-backdrop-click")`. -/
def closeOnBackdropClick (st : SheetState) : Bool := !st.ignoreBackdropClick

/-- `options.closeOnEscapeKey`: `!this.hasAttribute("ignore-escape-key")`. -/
def closeOnEscapeKey (st : SheetState) : Bool := !st.ignoreEscapeKey

/-- `options.closeOnDraggingDown`: `!this.hasAttribute("ignore-dragging-down")`. -/
def closeOnDraggingDown (st : SheetState) : Bool := !st.ignoreDraggingDown

/-- `showModal()`: if the `open` attribute is absent, set it, unhide, and
dispatch a non-cancelable `open` event; otherwise do nothing. -/
def showModal (st : SheetState) : SheetState × List Notification :=
  if !st.openAttr then
    ({ st with openAttr := true, ariaHidden := some false }, [.openEv])
  else
    (st, [])

/-- `show()`: delegates to `showModal()`. -/
def showSheet (st : SheetState) : SheetState × List Notification :=
  showModal st

/-- `close()`: if the `open` attribute is absent, return; otherwise remove
it, hide, and dispatch a non-cancelable `close` event. -/
def close (st : SheetState) : SheetState × List Notification :=
  if !st.openAttr then
    (st, [])
  else
    ({ st with openAttr := false, ariaHidden := some true }, [.closeEv])

/-- `#cancelAndCloseIfApplicable()`: if open, dispatch a cancelable `cancel`
event; when no listener prevented the default behavior, call `close()`.
`prevented` records whether some listener called `preventDefault()`. -/
def cancelAndCloseIfApplicable (prevented : Bool) (st : SheetState) :
    SheetState × List Notification :=
  if !st.openAttr then
    (st, [])
  else
    let rest := if !prevented then close st else (st, [])
    (rest.1, .cancelEv :: rest.2)

/-- A JavaScript value, as far as the `open` setter's strict equality
comparisons are concerned. -/
inductive JSValue where
  | undef
  | null
  | jsBool (b : Bool)
  | jsNum (x : JSNum)
  | jsStr (s : String)
  deriving DecidableEq, Repr

/-- JavaScript strict equality `===` (note `NaN === NaN` is false). -/
def jsStrictEq : JSValue → JSValue → Bool
  | .undef, .undef => true
  | .null, .null => true
  | .jsBool a, .jsBool b => a == b
  | .jsNum (.num a), .jsNum (.num b) => a == b
  | .jsNum .posInf, .jsNum .posInf => true
  | .jsNum .negInf, .jsNum .negInf => true
  | .jsStr a, .jsStr b => a == b
  | _, _ => false

/-- `set open(value)`: `value === false || value === undefined` routes to
`close()`, anything else to `show()`; the setter body also returns the
boolean literal of the taken branch. -/
def setOpen (value : JSValue) (st : SheetState) :
    (SheetState × List Notification) × Bool :=
  if jsStrictEq value (.jsBool false) || jsStrictEq value .undef then
    (close st, false)
  else
    (showSheet st, true)

/-- `#onSubmit(event)`: when `form?.method === "dialog"` or
`button?.formMethod === "dialog"`, record `button?.value ?? ""` into
`returnValue` and call `close()`; otherwise leave the event alone.
`formMethod`, `submitterFormMethod` and `submitterValue` are the optional
chainings' results (`none` = `undefined`). -/
def onSubmit (formMethod submitterFormMethod submitterValue : Option String)
    (st : SheetState) : SheetState × List Notification :=
  if formMethod == some "dialog" || submitterFormMethod == some "dialog" then
    close { st with returnValue := submitterValue.getD "" }
  else
    (st, [])

/-- `#onBackdropClick()`: request a cancelable close only when the
`closeOnBackdropClick` option is on. -/
def onBackdropClick (prevented : Bool) (st : SheetState) :
    SheetState × List Notification :=
  if closeOnBackdropClick st then
    cancelAndCloseIfApplicable prevented st
  else
    (st, [])

/-- `#onCloseButtonClick()`: always request a cancelable close. -/
def onCloseButtonClick (prevented : Bool) (st : SheetState) :
    SheetState × List Notification :=
  cancelAndCloseIfApplicable prevented st

/-- `#onKeyUp(event)`: request a cancelable close on `Escape` when the sheet
is not focused and the `closeOnEscapeKey` option is on. -/
def onKeyUp (key : String) (isSheetElementFocused : Bool) (prevented : Bool)
    (st : SheetState) : SheetState × List Notification :=
  if key == "Escape" && !isSheetElementFocused && closeOnEscapeKey st then
    cancelAndCloseIfApplicable prevented st
  else
    (st, [])

/-- `#getDistanceToTheBottomInPercents(y)`:
`Math.max(0, Math.min(100, 100 + (dragPosition - y) / clientHeight * 100))`.
The press position `p`, the sample `y` and the rendered `clientHeight` are
finite numbers; the division is where the special values can arise. -/
def getDistanceToTheBottomInPercents (p y h : ℚ) : JSNum :=
  let deltaY : ℚ := p - y
  let d := jsAdd (.num 100) (jsMul (jsDiv (.num deltaY) (.num h)) (.num 100))
  jsMax (.num 0) (jsMin (.num 100) d)

/-- `#dragSheet(distance)`: write
`translateY((100 - distance)%) scale(mapNumber(distance, [0,100], [scaleDownTo, 1]))`
and disable the transition. -/
def dragSheet (distance : JSNum) (st : SheetState) : SheetState :=
  let translateY := jsSub (.num 100) distance
  let scale := mapNumber distance (.num 0) (.num 100) st.scaleDownTo (.num 1)
  { st with transform := .translateYScale translateY scale, transitionNone := true }

/-- `#onDragStart(event)`: record the press position, mark the sheet as
being resized, switch both cursors to `grabbing`, and sample the
`--scale-down-to` CSS variable. -/
def onDragStart (pageY : ℚ) (scaleDownToValue : JSNum) (st : SheetState) :
    SheetState :=
  { st with dragPosition := some pageY, isResized := true,
            handleCursor := "grabbing", bodyCursor := "grabbing",
            scaleDownTo := scaleDownToValue }

/-- `#onDragMove(event)`: no-op without an active drag position; otherwise
apply the current distance to the visual transform. `h` is the sheet's
`clientHeight` at the time of the sample. -/
def onDragMove (pageY h : ℚ) (st : SheetState) : SheetState × List Notification :=
  match st.dragPosition with
  | none => (st, [])
  | some p => (dragSheet (getDistanceToTheBottomInPercents p pageY h) st, [])

/-- `#onDragEnd(event)`: no-op without an active drag position; otherwise
compute the final distance, call `close()` directly when it is `< 75` and
the `closeOnDraggingDown` option is on, then reset the cursors, clear the
drag position, the resized marker and the inline transform/transition. -/
def onDragEnd (pageY h : ℚ) (st : SheetState) : SheetState × List Notification :=
  match st.dragPosition with
  | none => (st, [])
  | some p =>
    let d := getDistanceToTheBottomInPercents p pageY h
    let r := if jsLt d (.num 75) && closeOnDraggingDown st then close st else (st, [])
    ({ r.1 with handleCursor := "", bodyCursor := "",
                dragPosition := none, isResized := false,
                transform := .cleared, transitionNone := false }, r.2)

/-- Run a state-and-trace operation twice from a state, concatenating the
emitted notifications. -/
def runTwice (f : SheetState → SheetState × List Notification)
    (st : SheetState) : SheetState × List Notification :=
  let r1 := f st
  let r2 := f r1.1
  (r2.1, r1.2 ++ r2.2)

/-- Whether a JavaScript number is a finite value within `[0, 100]`. -/
def withinZeroToHundred : JSNum → Bool
  | .num q => decide (0 ≤ q ∧ q ≤ 100)
  | _ => false

/-- A freshly constructed, closed sheet with no option attribute set. -/
def initialSheet : SheetState :=
  { openAttr := false, ariaHidden := none, returnValue := "",
    ignoreBackdropClick := false, ignoreEscapeKey := false,
    ignoreDraggingDown := false, dragPosition := none,
    scaleDownTo := .num 1, transform := .cleared, transitionNone := false,
    handleCursor := "", bodyCursor := "", isResized := false }

/-- An open sheet with default options and no active drag. -/
def demoOpen : SheetState := { initialSheet with openAttr := true }

/-- An open sheet in the middle of a drag that started at `pageY = 100`. -/
def demoDragging : SheetState :=
  { demoOpen with dragPosition := some 100, isResized := true,
                  handleCursor := "grabbing", bodyCursor := "grabbing" }

/-- An open sheet in the middle of a drag that started at `pageY = 5`. -/
def demoDraggingAt5 : SheetState :=
  { demoOpen with dragPosition := some 5, isResized := true,
                  handleCursor := "grabbing", bodyCursor := "grabbing" }

lemma showModal_returnValue (st : SheetState) :
    (showModal st).1.returnValue = st.returnValue := by
  unfold showModal; split <;> rfl

lemma close_returnValue (st : SheetState) :
    (close st).1.returnValue = st.returnValue := by
  unfold close; split <;> rfl

lemma cancelAndCloseIfApplicable_returnValue (prevented : Bool) (st : SheetState) :
    (cancelAndCloseIfApplicable prevented st).1.returnValue = st.returnValue := by
  unfold cancelAndCloseIfApplicable
  split
  · rfl
  · split <;> simp [close_returnValue]

/-- C3: for every open sheet state, if a `cancel` listener prevents the
default action during the cancelable close request, the state is unchanged,
`isOpen` stays true and no `close` notification fires; if no listener
prevents it, exactly one `close` notification fires and `isOpen` becomes
false. -/
theorem cancel_veto_keeps_sheet_open (st : SheetState) (prevented : Bool)
    (h : isOpen st = true) :
    (prevented = true →
      (cancelAndCloseIfApplicable prevented st).1 = st ∧
      isOpen (cancelAndCloseIfApplicable prevented st).1 = true ∧
      (cancelAndCloseIfApplicable prevented st).2.count Notification.closeEv = 0) ∧
    (prevented = false →
      (cancelAndCloseIfApplicable prevented st).2.count Notification.closeEv = 1 ∧
      isOpen (cancelAndCloseIfApplicable prevented st).1 = false) := by
  have hb : st.openAttr = true := h
  constructor
  · rintro rfl
    simp [cancelAndCloseIfApplicable, hb, isOpen, List.count_cons]
  · rintro rfl
    simp [cancelAndCloseIfApplicable, close, hb, isOpen, List.count_cons]

/-- C3 witness: instantiated at a concrete open sheet with a vetoing
listener. -/
theorem cancel_veto_keeps_sheet_open_witness :
    isOpen demoOpen = true ∧
    ((cancelAndCloseIfApplicable true demoOpen).1 = demoOpen ∧
      isOpen (cancelAndCloseIfApplicable true demoOpen).1 = true ∧
      (cancelAndCloseIfApplicable true demoOpen).2.count Notification.closeEv = 0) :=
  ⟨by decide, (cancel_veto_keeps_sheet_open demoOpen true (by decide)).1 rfl⟩

/-- C4 counterexample: the claim quantifies over every starting state, but
from an already-open sheet `show()` twice emits zero `open` notifications
(not exactly one), and from an already-closed sheet `close()` twice emits
zero `close` notifications. -/
theorem second_call_counterexample :
    (runTwice showSheet demoOpen).2.count Notification.openEv = 0 ∧
    (runTwice close initialSheet).2.count Notification.closeEv = 0 := by decide

/-- C4 (amended): the second of two consecutive `show()` calls, and of two
consecutive `close()` calls, is always a no-op that emits nothing; starting
from a closed sheet, `show()` twice emits exactly one `open` notification,
and starting from an open sheet, `close()` twice emits exactly one `close`
notification. -/
theorem second_call_is_noop (s : SheetState) :
    (showSheet (showSheet s).1).2 = [] ∧
    (showSheet (showSheet s).1).1 = (showSheet s).1 ∧
    (close (close s).1).2 = [] ∧
    (close (close s).1).1 = (close s).1 ∧
    (isOpen s = false → (runTwice showSheet s).2.count Notification.openEv = 1) ∧
    (isOpen s = true → (runTwice close s).2.count Notification.closeEv = 1) := by
  by_cases hb : s.openAttr <;>
    simp [showSheet, showModal, close, runTwice, isOpen, hb, List.count_cons]

/-- C4 witness: from the initial closed sheet, two `show()` calls emit
exactly one `open` notification. -/
theorem second_call_is_noop_witness :
    isOpen initialSheet = false ∧
    (runTwice showSheet initialSheet).2.count Notification.openEv = 1 :=
  ⟨by decide, (second_call_is_noop initialSheet).2.2.2.2.1 (by decide)⟩

/-- C7: on an open sheet, a backdrop click with `closeOnBackdropClick`
off is a complete no-op (state unchanged, no notification); with the
option on (its default) and no veto, it emits exactly one `cancel`
followed by exactly one `close`. -/
theorem backdrop_click_gating (st : SheetState) (prevented : Bool)
    (h : isOpen st = true) :
    (closeOnBackdropClick st = false → onBackdropClick prevented st = (st, [])) ∧
    (closeOnBackdropClick st = true → prevented = false →
      (onBackdropClick prevented st).2 = [Notification.cancelEv, Notification.closeEv] ∧
      isOpen (onBackdropClick prevented st).1 = false) := by
  have hb : st.openAttr = true := h
  constructor
  · intro hoff
    simp only [closeOnBackdropClick, Bool.not_eq_false'] at hoff
    simp [onBackdropClick, closeOnBackdropClick, hoff]
  · rintro hon rfl
    simp only [closeOnBackdropClick, Bool.not_eq_true'] at hon
    simp [onBackdropClick, closeOnBackdropClick, hon,
      cancelAndCloseIfApplicable, close, hb, isOpen]

/-- C7 witness: a backdrop click on a concrete open sheet with default
options and no veto emits a `cancel` followed by a `close`. -/
theorem backdrop_click_gating_witness :
    isOpen demoOpen = true ∧ closeOnBackdropClick demoOpen = true ∧
    ((onBackdropClick false demoOpen).2 =
        [Notification.cancelEv, Notification.closeEv] ∧
      isOpen (onBackdropClick false demoOpen).1 = false) :=
  ⟨by decide, by decide,
    (backdrop_click_gating demoOpen false (by decide)).2 (by decide) rfl⟩

/-- C8: a move or release sample delivered while no drag session is active
(`#dragPosition` is unset) leaves the whole state unchanged and emits no
notification. -/
theorem stray_drag_events_are_noops (pageY h : ℚ) (st : SheetState)
    (hidle : st.dragPosition = none) :
    onDragMove pageY h st = (st, []) ∧ onDragEnd pageY h st = (st, []) := by
  unfold onDragMove onDragEnd
  rw [hidle]
  exact ⟨rfl, rfl⟩

/-- C8 witness: a stray release and a stray move on the initial sheet are
no-ops. -/
theorem stray_drag_events_are_noops_witness :
    initialSheet.dragPosition = none ∧
    (onDragMove 0 0 initialSheet = (initialSheet, []) ∧
      onDragEnd 0 0 initialSheet = (initialSheet, [])) :=
  ⟨by decide, stray_drag_events_are_noops 0 0 initialSheet (by decide)⟩

/-- C6: submitting a contained form with the dialog method while the sheet
is open records the submitter's value (empty string when absent) into
`returnValue` and then closes directly: exactly one `close` notification,
no `cancel`, and the sheet ends up closed. -/
theorem dialog_submit_closes_directly (st : SheetState)
    (formMethod submitterFormMethod submitterValue : Option String)
    (hopen : isOpen st = true)
    (hm : formMethod = some "dialog" ∨ submitterFormMethod = some "dialog") :
    (onSubmit formMethod submitterFormMethod submitterValue st).1.returnValue =
      submitterValue.getD "" ∧
    (onSubmit formMethod submitterFormMethod submitterValue st).2 =
      [Notification.closeEv] ∧
    isOpen (onSubmit formMethod submitterFormMethod submitterValue st).1 = false := by
  have hb : st.openAttr = true := hopen
  have hcond :
      (formMethod == some "dialog" || submitterFormMethod == some "dialog") = true := by
    rcases hm with h | h <;> simp [h]
  unfold onSubmit
  rw [hcond]
  simp [close, hb, isOpen]

/-- C6 witness: submitting with a submit control whose value is
`"confirmed"` closes the sheet with `returnValue = "confirmed"`. -/
theorem dialog_submit_closes_directly_witness :
    isOpen demoOpen = true ∧
    ((onSubmit (some "dialog") none (some "confirmed") demoOpen).1.returnValue =
        (some "confirmed").getD "" ∧
      (onSubmit (some "dialog") none (some "confirmed") demoOpen).2 =
        [Notification.closeEv] ∧
      isOpen (onSubmit (some "dialog") none (some "confirmed") demoOpen).1 = false) :=
  ⟨by decide,
    dialog_submit_closes_directly demoOpen (some "dialog") none (some "confirmed")
      (by decide) (Or.inl rfl)⟩

/-- C9: `returnValue` is never written by `showModal`, `show`, `close`, the
cancelable close path, the backdrop, close-button, key-up and drag handlers,
or the `open` setter; among the built-in operations only a dialog-method
form submission assigns it (to the submitter's value, `""` when absent). -/
theorem returnValue_only_written_by_submit (st : SheetState)
    (prevented focused : Bool) (key : String) (pageY h py : ℚ)
    (sdt : JSNum) (v : JSValue) (sfm sv : Option String) :
    (showModal st).1.returnValue = st.returnValue ∧
    (showSheet st).1.returnValue = st.returnValue ∧
    (close st).1.returnValue = st.returnValue ∧
    (cancelAndCloseIfApplicable prevented st).1.returnValue = st.returnValue ∧
    (onBackdropClick prevented st).1.returnValue = st.returnValue ∧
    (onCloseButtonClick prevented st).1.returnValue = st.returnValue ∧
    (onKeyUp key focused prevented st).1.returnValue = st.returnValue ∧
    (onDragStart py sdt st).returnValue = st.returnValue ∧
    (onDragMove pageY h st).1.returnValue = st.returnValue ∧
    (onDragEnd pageY h st).1.returnValue = st.returnValue ∧
    ((setOpen v st).1).1.returnValue = st.returnValue ∧
    (onSubmit (some "dialog") sfm sv st).1.returnValue = sv.getD "" := by
  refine ⟨showModal_returnValue st, showModal_returnValue st, close_returnValue st,
    cancelAndCloseIfApplicable_returnValue prevented st, ?_, ?_, ?_, rfl, ?_, ?_, ?_, ?_⟩
  · unfold onBackdropClick
    split
    · exact cancelAndCloseIfApplicable_returnValue prevented st
    · rfl
  · exact cancelAndCloseIfApplicable_returnValue prevented st
  · unfold onKeyUp
    split
    · exact cancelAndCloseIfApplicable_returnValue prevented st
    · rfl
  · unfold onDragMove
    split
    · rfl
    · rfl
  · unfold onDragEnd
    split
    · rfl
    · simp only []
      split
      · simp [close_returnValue]
      · rfl
  · unfold setOpen
    split
    · exact close_returnValue st
    · exact showModal_returnValue st
  · unfold onSubmit
    simp [close_returnValue]

/-- C10: the `open` setter closes the sheet exactly when the assigned value
is strictly equal to `false` or to `undefined`; every other value —
including `null`, `0`, `NaN` and the empty string — routes to `show()`. -/
theorem open_setter_strict_equality (st : SheetState) :
    (setOpen (JSValue.jsBool false) st).1 = close st ∧
    (setOpen JSValue.undef st).1 = close st ∧
    (setOpen JSValue.null st).1 = showSheet st ∧
    (setOpen (JSValue.jsNum (JSNum.num 0)) st).1 = showSheet st ∧
    (setOpen (JSValue.jsNum JSNum.nan) st).1 = showSheet st ∧
    (setOpen (JSValue.jsStr "") st).1 = showSheet st ∧
    (∀ v : JSValue, v ≠ JSValue.jsBool false → v ≠ JSValue.undef →
      (setOpen v st).1 = showSheet st) := by
  refine ⟨rfl, rfl, rfl, rfl, rfl, rfl, ?_⟩
  intro v h1 h2
  cases v with
  | undef => exact absurd rfl h2
  | null => rfl
  | jsBool b =>
    cases b
    · exact absurd rfl h1
    · rfl
  | jsNum x => cases x <;> rfl
  | jsStr s => simp [setOpen, jsStrictEq]

/-- C10 witness: assigning the string `"x"` (neither `false` nor
`undefined`) opens the sheet. -/
theorem open_setter_strict_equality_witness :
    JSValue.jsStr "x" ≠ JSValue.jsBool false ∧ JSValue.jsStr "x" ≠ JSValue.undef ∧
    (setOpen (JSValue.jsStr "x") initialSheet).1 = showSheet initialSheet :=
  ⟨by decide, by decide,
    (open_setter_strict_equality initialSheet).2.2.2.2.2.2
      (JSValue.jsStr "x") (by decide) (by decide)⟩

/-- C1 evidence: releasing a drag at final clamped distance 60 (< 75) with
`closeOnDraggingDown` on closes the sheet by calling `close()` directly: the
emitted trace is exactly one `close` notification with no cancelable
`cancel` notification, so a `cancel` listener is never consulted and cannot
veto the close. -/
theorem dragEnd_closes_directly_without_cancel :
    getDistanceToTheBottomInPercents 100 300 500 = .num 60 ∧
    closeOnDraggingDown demoDragging = true ∧
    (onDragEnd 300 500 demoDragging).2 = [Notification.closeEv] ∧
    (onDragEnd 300 500 demoDragging).2.count Notification.cancelEv = 0 ∧
    isOpen (onDragEnd 300 500 demoDragging).1 = false := by
  refine ⟨?_, by decide, ?_, ?_, ?_⟩ <;>
    norm_num [onDragEnd, demoDragging, demoOpen, initialSheet,
      getDistanceToTheBottomInPercents, jsAdd, jsDiv, jsMul, jsMin, jsMax, jsLt,
      closeOnDraggingDown, close, isOpen, List.count_cons]
  decide

/-- C2 evidence: with a zero-height surface and a sample at the press
coordinate, the distance computation yields `0/0 = NaN`, the min/max clamp
propagates it, and `#onDragMove` does not skip the update: it writes the
`NaN` offset into the visual transform. -/
theorem zero_height_distance_is_nan :
    getDistanceToTheBottomInPercents 5 5 0 = JSNum.nan ∧
    (onDragMove 5 0 demoDraggingAt5).1.transform =
      InlineTransform.translateYScale JSNum.nan JSNum.nan ∧
    (onDragMove 5 0 demoDraggingAt5).1 ≠ demoDraggingAt5 := by
  refine ⟨?_, ?_, ?_⟩
  · norm_num [getDistanceToTheBottomInPercents, jsAdd, jsDiv, jsMul, jsMin, jsMax]
  · norm_num [onDragMove, demoDraggingAt5, demoOpen, initialSheet,
      getDistanceToTheBottomInPercents, jsAdd, jsDiv, jsMul, jsMin, jsMax,
      dragSheet, mapNumber, jsSub, jsNeg]
  · intro hcontra
    have h1 : (onDragMove 5 0 demoDraggingAt5).1.transitionNone = true := by
      norm_num [onDragMove, demoDraggingAt5, demoOpen, initialSheet,
        getDistanceToTheBottomInPercents, jsAdd, jsDiv, jsMul, jsMin, jsMax,
        dragSheet, mapNumber, jsSub, jsNeg]
    rw [hcontra] at h1
    exact absurd h1 (by decide)

/-- C5 counterexample: the claim quantifies over any sheet height, but with
height 0 and an unmoved pointer the computed value is `NaN`, which is not a
finite number within `[0, 100]`. -/
theorem distance_clamp_counterexample :
    withinZeroToHundred (getDistanceToTheBottomInPercents 5 5 0) = false := by
  norm_num [withinZeroToHundred, getDistanceToTheBottomInPercents,
    jsAdd, jsDiv, jsMul, jsMin, jsMax]

/-- C5 (amended): for every drag delta in which the press and release
coordinates differ or the surface height is nonzero, the clamped distance is
a finite number within `[0, 100]` inclusive. -/
theorem distance_always_clamped (p y h : ℚ) (hne : p ≠ y ∨ h ≠ 0) :
    withinZeroToHundred (getDistanceToTheBottomInPercents p y h) = true := by
  unfold getDistanceToTheBottomInPercents
  by_cases hh : h = 0
  · subst hh
    have hpy : p - y ≠ 0 := by
      rcases hne with hpy | h0
      · exact sub_ne_zero_of_ne hpy
      · exact absurd rfl h0
    rcases lt_or_gt_of_ne hpy with hlt | hgt
    · simp only [jsDiv, if_pos rfl, if_neg (not_lt_of_gt hlt), if_pos hlt]
      norm_num [jsMul, jsAdd, jsMin, jsMax, withinZeroToHundred]
    · simp only [jsDiv, if_pos rfl, if_pos hgt]
      norm_num [jsMul, jsAdd, jsMin, jsMax, withinZeroToHundred]
  · simp only [jsDiv, if_neg hh, jsMul, jsAdd, jsMin, jsMax, withinZeroToHundred]
    rw [decide_eq_true_eq]
    constructor
    · exact le_max_left 0 _
    · exact max_le (by norm_num) (min_le_left _ _)

/-- C5 witness: a concrete drag over a 100-pixel-high sheet from
`pageY = 5` to `pageY = 7` yields a clamped distance within `[0, 100]`. -/
theorem distance_always_clamped_witness :
    ((5 : ℚ) ≠ 7 ∨ (100 : ℚ) ≠ 0) ∧
    withinZeroToHundred (getDistanceToTheBottomInPercents 5 7 100) = true :=
  ⟨by norm_num, distance_always_clamped 5 7 100 (by norm_num)⟩

end SheetSpec
